import Mathlib

/-!
Verification of the Financial Document Analyzer's job orchestration, queueing,
persistence and extraction code against its natural-language specification.

Embedded modules:
* `bonus_queue_system.py` — `queue_financial_analysis`, the three priority
  queues and the worker's dequeue order (`start_worker`);
* `bonus_database.py` — the `AnalysisResult` record and
  `DatabaseOperations.update_analysis_status`;
* `main.py` — `run_crew` (sequential CrewAI kickoff) and the `/analyze`
  endpoint's response;
* `bonus_main.py` — `analyze_document` and `analyze_document_async`;
* `tools.py` — `FinancialDocumentTool._run`.

Modelling conventions: Python strings are Lean `String`s (lists of
characters); Python file objects are modelled by their contents; the
effectful collaborators (the Redis connection, the `enqueue` round-trip, the
CrewAI stages, SQLAlchemy commits) are modelled by explicit outcome
parameters so that every failure mode the code handles is representable.
-/

/-! ### Python string primitives used by the source -/

/-- The ASCII whitespace characters removed by Python's `str.strip`. -/
def pyIsSpace (c : Char) : Bool :=
  c = ' ' || c = '\t' || c = '\n' || c = '\x0b' || c = '\x0c' || c = '\r'

/-- Python `str.strip` on a character list: drop whitespace at both ends. -/
def pyStripList (l : List Char) : List Char :=
  ((l.dropWhile pyIsSpace).reverse.dropWhile pyIsSpace).reverse

/-- Python `str.strip`. -/
def pyStrip (s : String) : String := String.mk (pyStripList s.data)

/-- Python `str.lower` (the source only ever lowercases ASCII file names). -/
def pyLower (s : String) : String := String.mk (s.data.map Char.toLower)

/-- Python `str.endswith`. -/
def pyEndsWith (s suffix : String) : Bool := suffix.data.isSuffixOf s.data

/-- One left-to-right, non-overlapping replacement pass over a character
list, as performed by Python's `str.replace`.  `fuel` is an upper bound on
the length of the remaining input, so the recursion is structural. -/
def pyReplaceAux (pat rep : List Char) : Nat → List Char → List Char
  | 0, l => l
  | _ + 1, [] => []
  | fuel + 1, c :: rest =>
    if pat.isPrefixOf (c :: rest) then
      rep ++ pyReplaceAux pat rep fuel ((c :: rest).drop pat.length)
    else
      c :: pyReplaceAux pat rep fuel rest

/-- Python `str.replace` (the source only calls it with non-empty patterns,
for which this is exact). -/
def pyReplace (s pat rep : String) : String :=
  if pat.data.isEmpty then s
  else String.mk (pyReplaceAux pat.data rep.data s.data.length s.data)

/-- `file.filename.lower().endswith(".pdf")`, the PDF-name check used by
both `tools.py` and `bonus_main.py`. -/
def hasPdfExt (filename : String) : Bool := pyEndsWith (pyLower filename) ".pdf"

/-- Two strings built by appending onto prefixes that already differ within
their first `k` characters are different. -/
theorem take_append_left' (k : Nat) :
    ∀ (a b : List Char), k ≤ a.length → (a ++ b).take k = a.take k := by
  induction k with
  | zero => intro a b _; simp
  | succ n ih =>
    intro a b h
    cases a with
    | nil => simp at h
    | cons c cs =>
      simp only [List.cons_append, List.take_succ_cons]
      rw [ih cs b (Nat.le_of_succ_le_succ h)]

/-- `String.data` distributes over append. -/
theorem data_append (a b : String) : (a ++ b).data = a.data ++ b.data := by
  cases a; cases b; rfl

/-- A `String` is determined by its character list. -/
theorem string_eq_of_data_eq (a b : String) (h : a.data = b.data) : a = b := by
  cases a; cases b; exact congrArg String.mk h

/-- If two strings decompose as `a₁ ++ t₁` and `a₂ ++ t₂` at the character
level and the prefixes disagree within their first `k` characters, the
strings are different. -/
theorem string_ne_of_prefix_ne (s₁ s₂ : String) (a₁ a₂ t₁ t₂ : List Char) (k : Nat)
    (e₁ : s₁.data = a₁ ++ t₁) (e₂ : s₂.data = a₂ ++ t₂)
    (h₁ : k ≤ a₁.length) (h₂ : k ≤ a₂.length)
    (hne : a₁.take k ≠ a₂.take k) : s₁ ≠ s₂ := by
  intro h
  apply hne
  have hd : s₁.data = s₂.data := congrArg String.data h
  rw [e₁, e₂] at hd
  calc a₁.take k = (a₁ ++ t₁).take k := (take_append_left' k a₁ t₁ h₁).symm
    _ = (a₂ ++ t₂).take k := by rw [hd]
    _ = a₂.take k := take_append_left' k a₂ t₂ h₂

/-! ### `bonus_queue_system.py`: priority lanes, enqueue, worker dequeue -/

/-- The three priority lanes (`high_priority`, `analysis`, `low_priority`). -/
inductive Lane where
  | high
  | normal
  | low
deriving DecidableEq

/-- A queued analysis job, as created by `queue.enqueue(run_crew, ...)`:
the explicit `job_id`, the analysis `query`, the `file_path` and the job
`timeout` in seconds. -/
structure QJob where
  id : String
  query : String
  filePath : String
  timeout : Nat
deriving DecidableEq

/-- The state of the three FIFO lanes.  Enqueue appends at the tail; the
head of a list is the oldest job in that lane. -/
structure QueueState where
  high : List QJob
  normal : List QJob
  low : List QJob
deriving DecidableEq

def emptyQueue : QueueState := ⟨[], [], []⟩

/-- The `if priority == 'high' ... elif priority == 'low' ... else` lane
selection inside `queue_financial_analysis`. -/
def laneFor (priority : String) : Lane :=
  if priority = "high" then Lane.high
  else if priority = "low" then Lane.low
  else Lane.normal

/-- Append a job at the tail of the selected lane. -/
def pushLane (st : QueueState) (l : Lane) (j : QJob) : QueueState :=
  match l with
  | Lane.high => { st with high := st.high ++ [j] }
  | Lane.normal => { st with normal := st.normal ++ [j] }
  | Lane.low => { st with low := st.low ++ [j] }

/-- `os.path.basename`: the part of the path after the last slash. -/
def basename (p : String) : String :=
  String.mk ((p.data.reverse.takeWhile (fun c => !(c = '/'))).reverse)

/-- The job id built by `queue_financial_analysis`:
`f"analysis_{datetime.now().strftime('%Y%m%d_%H%M%S')}_{os.path.basename(file_path)}"`.
`now` is the formatted second-resolution timestamp string. -/
def jobIdFor (now : String) (filePath : String) : String :=
  "analysis_" ++ now ++ "_" ++ basename filePath

/-- `queue_financial_analysis(file_path, query, priority, timeout)`.

`redisConn` models whether the module-level `redis_conn` is non-`None`;
`enqueueOk` models whether the `queue.enqueue` round-trip raises (the
surrounding `except` turns any exception into a `None` return).  Returns
the optional job id together with the resulting lane state. -/
def queue_financial_analysis (redisConn : Bool) (st : QueueState) (enqueueOk : Bool)
    (now filePath query priority : String) (timeout : Nat := 600) :
    Option String × QueueState :=
  if !redisConn then (none, st)
  else if !enqueueOk then (none, st)
  else
    let jid := jobIdFor now filePath
    (some jid, pushLane st (laneFor priority) ⟨jid, query, filePath, timeout⟩)

/-- Modelled from the spec: the dequeue step of the worker started by
`start_worker`.  The repository hands the external RQ `Worker` the queue
list `[high_priority_queue, normal_queue, low_priority_queue]` (its default
order); the backend's dequeue — which is not part of this repository —
takes the first job of the first non-empty queue in that listed order
(§4.2 `dequeue_next`, strict priority), returning `none` when all lanes are
empty.  The drained lane is reported alongside the job. -/
def dequeue_next (st : QueueState) : Option (Lane × QJob) × QueueState :=
  match st.high with
  | j :: rest => (some (Lane.high, j), { st with high := rest })
  | [] =>
    match st.normal with
    | j :: rest => (some (Lane.normal, j), { st with normal := rest })
    | [] =>
      match st.low with
      | j :: rest => (some (Lane.low, j), { st with low := rest })
      | [] => (none, st)

/-- C3: dequeue is strict-priority across lanes: a job is served from the
normal lane only when the high lane is empty, and from the low lane only
when both high and normal are empty; and with one `high` and one `normal`
job enqueued in either order, the `high` job is dequeued first. -/
theorem dequeue_strict_priority :
    (∀ (st st' : QueueState) (j : QJob),
      dequeue_next st = (some (Lane.normal, j), st') → st.high = []) ∧
    (∀ (st st' : QueueState) (j : QJob),
      dequeue_next st = (some (Lane.low, j), st') → st.high = [] ∧ st.normal = []) ∧
    (∀ (nowH fpH qH nowN fpN qN : String),
      (dequeue_next (queue_financial_analysis true
          (queue_financial_analysis true emptyQueue true nowH fpH qH "high").2
          true nowN fpN qN "normal").2).1
        = some (Lane.high, ⟨jobIdFor nowH fpH, qH, fpH, 600⟩)) ∧
    (∀ (nowH fpH qH nowN fpN qN : String),
      (dequeue_next (queue_financial_analysis true
          (queue_financial_analysis true emptyQueue true nowN fpN qN "normal").2
          true nowH fpH qH "high").2).1
        = some (Lane.high, ⟨jobIdFor nowH fpH, qH, fpH, 600⟩)) := by
  refine ⟨?_, ?_, ?_, ?_⟩
  · intro st st' j h
    rcases st with ⟨hi, no, lo⟩
    cases hi with
    | nil => rfl
    | cons a l =>
      simp [dequeue_next] at h
  · intro st st' j h
    rcases st with ⟨hi, no, lo⟩
    cases hi with
    | cons a l => simp [dequeue_next] at h
    | nil =>
      cases no with
      | cons a l => simp [dequeue_next] at h
      | nil => exact ⟨rfl, rfl⟩
  · intro nowH fpH qH nowN fpN qN; rfl
  · intro nowH fpH qH nowN fpN qN; rfl

/-- Witness for C3: a concrete dequeue that serves the normal lane has an
empty high lane. -/
theorem dequeue_strict_priority_witness :
    (QueueState.mk [] [⟨"analysis_t_f", "q", "f", 600⟩] []).high = [] :=
  dequeue_strict_priority.1 ⟨[], [⟨"analysis_t_f", "q", "f", 600⟩], []⟩ ⟨[], [], []⟩
    ⟨"analysis_t_f", "q", "f", 600⟩ rfl

/-- C5: when the backing store cannot be reached — the module-level Redis
connection is `None`, or the `enqueue` round-trip raises — enqueue returns
`None` (the QueueUnavailable outcome) and no lane is modified. -/
theorem enqueue_unavailable_fails_fast :
    (∀ (st : QueueState) (enqOk : Bool) (now fp q p : String) (t : Nat),
      queue_financial_analysis false st enqOk now fp q p t = (none, st)) ∧
    (∀ (st : QueueState) (now fp q p : String) (t : Nat),
      queue_financial_analysis true st false now fp q p t = (none, st)) :=
  ⟨fun _ _ _ _ _ _ _ => rfl, fun _ _ _ _ _ _ => rfl⟩

/-- C9 (part of): priority-to-lane mapping is total with a normal default,
and an unrecognized priority string is never rejected: enqueue still
succeeds and returns a job id. -/
theorem priority_mapping_total :
    laneFor "high" = Lane.high ∧
    laneFor "low" = Lane.low ∧
    laneFor "normal" = Lane.normal ∧
    (∀ p : String, p ≠ "high" → p ≠ "low" → laneFor p = Lane.normal) ∧
    (∀ (st : QueueState) (now fp q p : String),
      (queue_financial_analysis true st true now fp q p).1 = some (jobIdFor now fp)) := by
  refine ⟨rfl, rfl, rfl, ?_, ?_⟩
  · intro p h1 h2
    simp [laneFor, h1, h2]
  · intro st now fp q p; rfl

/-- Witness for C9: the unrecognized priority string `"urgent"` silently
selects the normal lane. -/
theorem priority_mapping_total_witness : laneFor "urgent" = Lane.normal :=
  priority_mapping_total.2.2.2.1 "urgent" (by decide) (by decide)

/-- Counterexample for C8: two distinct successful submissions (different
queries) made in the same second for the same file path receive the same
job id, so job ids are not globally unique. -/
theorem job_id_collision_counterexample :
    (queue_financial_analysis true emptyQueue true "20250101_120000" "data/sample.pdf"
        "summarize revenue" "normal").1
      = (queue_financial_analysis true emptyQueue true "20250101_120000" "data/sample.pdf"
        "assess risk" "normal").1 ∧
    (queue_financial_analysis true emptyQueue true "20250101_120000" "data/sample.pdf"
        "summarize revenue" "normal").1
      = some "analysis_20250101_120000_sample.pdf" :=
  ⟨rfl, rfl⟩

/-- C8 (amended): the job id is determined by exactly the second-resolution
timestamp and the file basename — for timestamp strings of equal length
(`strftime('%Y%m%d_%H%M%S')` always yields 15 characters), two job ids
coincide iff the timestamps and the basenames coincide. -/
theorem job_id_determined_by_time_and_basename (t1 t2 p1 p2 : String)
    (hlen : t1.length = t2.length) :
    jobIdFor t1 p1 = jobIdFor t2 p2 ↔ t1 = t2 ∧ basename p1 = basename p2 := by
  constructor
  · intro h
    have hd := congrArg String.data h
    simp only [jobIdFor, data_append, List.append_assoc] at hd
    have hd' := List.append_cancel_left hd
    have hlen' : t1.data.length = t2.data.length := hlen
    obtain ⟨ht, hrest⟩ := List.append_inj hd' hlen'
    have hb := List.append_cancel_left hrest
    exact ⟨string_eq_of_data_eq t1 t2 ht,
           string_eq_of_data_eq (basename p1) (basename p2) hb⟩
  · rintro ⟨h1, h2⟩
    simp only [jobIdFor, h1, h2]

/-- Witness for C8 (amended): same second, different directories but the
same basename — the ids collide. -/
theorem job_id_determined_witness :
    jobIdFor "20250101_120000" "data/sample.pdf"
      = jobIdFor "20250101_120000" "uploads/sample.pdf" :=
  (job_id_determined_by_time_and_basename "20250101_120000" "20250101_120000"
      "data/sample.pdf" "uploads/sample.pdf" rfl).mpr ⟨rfl, by decide⟩

/-! ### `bonus_database.py`: the analysis-result store -/

/-- One row of the `analysis_results` table, restricted to the columns the
status-update path touches. -/
structure AnalysisResult where
  id : String
  status : String
  analysisResult : String
  errorMessage : Option String
  updatedAt : Nat
deriving DecidableEq

/-- Python truthiness of an optional string argument (`None` and `""` are
falsy), as used by the `if error_message:` / `if analysis_result:` guards. -/
def pyTruthy (o : Option String) : Bool :=
  match o with
  | some s => s != ""
  | none => false

/-- The field mutations performed by `update_analysis_status` on the row it
found: the requested status and `updated_at` are always written; the error
message and the analysis text only when the argument is truthy. -/
def applyStatusUpdate (status : String) (errorMessage analysisUpdate : Option String)
    (now : Nat) (r : AnalysisResult) : AnalysisResult :=
  let r1 := { r with status := status, updatedAt := now }
  let r2 := if pyTruthy errorMessage then { r1 with errorMessage := errorMessage } else r1
  if pyTruthy analysisUpdate then
    { r2 with analysisResult := analysisUpdate.getD r2.analysisResult }
  else r2

/-- Replace the first record with the given primary key (the
`filter(...).first()` row that the session mutates; `id` is the primary
key, so at most one row matches). -/
def updateFirst (db : List AnalysisResult) (resultId : String)
    (f : AnalysisResult → AnalysisResult) : List AnalysisResult :=
  match db with
  | [] => []
  | r :: rest =>
    if r.id == resultId then f r :: rest else r :: updateFirst rest resultId f

/-- `DatabaseOperations.update_analysis_status(db, result_id, status,
error_message, analysis_result)`.  Returns `False` and leaves the store
unchanged when no row matches or the commit raises (`commitOk = false`,
modelling the `except ... rollback` branch); otherwise writes the requested
fields unconditionally and returns `True`. -/
def update_analysis_status (db : List AnalysisResult) (resultId status : String)
    (errorMessage analysisUpdate : Option String) (now : Nat) (commitOk : Bool) :
    Bool × List AnalysisResult :=
  match db.find? (fun r => r.id == resultId) with
  | none => (false, db)
  | some _ =>
    if commitOk then
      (true, updateFirst db resultId (applyStatusUpdate status errorMessage analysisUpdate now))
    else (false, db)

theorem applyStatusUpdate_id (status : String) (em ar : Option String) (now : Nat)
    (r : AnalysisResult) : (applyStatusUpdate status em ar now r).id = r.id := by
  unfold applyStatusUpdate
  dsimp only
  split <;> split <;> rfl

theorem applyStatusUpdate_status (status : String) (em ar : Option String) (now : Nat)
    (r : AnalysisResult) : (applyStatusUpdate status em ar now r).status = status := by
  unfold applyStatusUpdate
  dsimp only
  split <;> split <;> rfl

/-- `find?` after `updateFirst` locates the image of the record `find?`
located before, provided the update preserves the key. -/
theorem updateFirst_find (db : List AnalysisResult) (resultId : String)
    (f : AnalysisResult → AnalysisResult) (hf : ∀ r, (f r).id = r.id) :
    (updateFirst db resultId f).find? (fun r => r.id == resultId)
      = (db.find? (fun r => r.id == resultId)).map f := by
  induction db with
  | nil => rfl
  | cons r rest ih =>
    by_cases hr : (r.id == resultId) = true
    · simp [updateFirst, hr, List.find?, hf r]
    · simp only [Bool.not_eq_true] at hr
      simp [updateFirst, hr, List.find?, ih]

/-- Counterexample for C2: completing a job record that is still `queued`
is applied silently — the call returns `True` and the record's status
becomes `completed`; nothing rejects the out-of-order transition. -/
theorem update_status_counterexample :
    update_analysis_status [⟨"r1", "queued", "Queued for processing...", none, 0⟩]
        "r1" "completed" none (some "final report") 5 true
      = (true, [⟨"r1", "completed", "final report", none, 5⟩]) := rfl

/-- C2 (amended): `update_analysis_status` enforces no state machine:
whenever a record with the given id exists and the commit succeeds, any
requested status — in any order relative to the record's current status —
is applied unconditionally and `True` is returned. -/
theorem update_status_applies_unconditionally (db : List AnalysisResult)
    (resultId status : String) (errorMessage analysisUpdate : Option String) (now : Nat)
    (h : (db.find? (fun r => r.id == resultId)).isSome = true) :
    (update_analysis_status db resultId status errorMessage analysisUpdate now true).1 = true ∧
    ((update_analysis_status db resultId status errorMessage analysisUpdate now true).2.find?
        (fun r => r.id == resultId)).map AnalysisResult.status = some status := by
  rcases hfind : db.find? (fun r => r.id == resultId) with _ | r
  · rw [hfind] at h; simp at h
  · have hupd : update_analysis_status db resultId status errorMessage analysisUpdate now true
        = (true, updateFirst db resultId
            (applyStatusUpdate status errorMessage analysisUpdate now)) := by
      simp [update_analysis_status, hfind]
    constructor
    · rw [hupd]
    · rw [hupd]
      dsimp only
      rw [updateFirst_find db resultId _ (applyStatusUpdate_id status errorMessage analysisUpdate now)]
      rw [hfind]
      simp [applyStatusUpdate_status]

/-- Witness for C2 (amended): marking a concrete `processing` record as
`failed` is applied and reported as `True`. -/
theorem update_status_applies_witness :
    (update_analysis_status [⟨"a1", "processing", "r", none, 0⟩]
        "a1" "failed" (some "boom") none 7 true).1 = true :=
  (update_status_applies_unconditionally [⟨"a1", "processing", "r", none, 0⟩]
      "a1" "failed" (some "boom") none 7 (by decide)).1

/-! ### `main.py`: `run_crew` and the `/analyze` endpoint tag -/

/-- One CrewAI task: its name and the opaque reasoning function it runs,
taking the kickoff inputs (`query`, `file_path`) and the outputs of the
tasks already executed. -/
structure CrewTask where
  name : String
  fn : String → String → List String → String

/-- The sequential CrewAI kickoff loop, modelled from CrewAI's documented
`Process.sequential` behavior (the CrewAI engine is an external dependency,
not code of this repository): every task in the declared list is executed
exactly once, in order, receiving the accumulated prior outputs; no task
output short-circuits the run.  The trace of `(task name, output)` pairs is
returned. -/
def kickoffGo (q fp : String) : List CrewTask → List (String × String) → List (String × String)
  | [], acc => acc
  | t :: ts, acc => kickoffGo q fp ts (acc ++ [(t.name, t.fn q fp (acc.map Prod.snd))])

/-- `Crew(..., process=Process.sequential).kickoff({'query': query,
'file_path': file_path})`, as invoked by `run_crew`. -/
def kickoff (tasks : List CrewTask) (query filePath : String) : List (String × String) :=
  kickoffGo query filePath tasks []

/-- `run_crew` returns the crew result — the final task's output. -/
def run_crew (tasks : List CrewTask) (query filePath : String) : String :=
  ((kickoff tasks query filePath).map Prod.snd).getLastD ""

/-- How many times a stage with the given name was invoked in a trace. -/
def callCount (trace : List (String × String)) (name : String) : Nat :=
  (trace.filter (fun e => e.1 == name)).length

/-- The `/analyze` endpoint's response in `main.py`: unconditionally tagged
`"status": "success"` once `run_crew` returns. -/
def analyze_endpoint_response (query fileUsed outputReport : String) :
    List (String × String) :=
  [("status", "success"), ("query", query), ("file_used", fileUsed),
   ("output_report", outputReport)]

/-- The four tasks of `run_crew` in a run whose verification stage reports
the document unsuitable. -/
def gatingScenarioTasks : List CrewTask :=
  [⟨"verification", fun _ _ _ => "FAIL: document unsuitable for financial analysis"⟩,
   ⟨"analyze_financial_document", fun _ _ _ => "financial analysis output"⟩,
   ⟨"investment_analysis", fun _ _ _ => "investment output"⟩,
   ⟨"risk_assessment", fun _ _ _ => "risk output"⟩]

theorem kickoffGo_names (q fp : String) :
    ∀ (tasks : List CrewTask) (acc : List (String × String)),
      (kickoffGo q fp tasks acc).map Prod.fst
        = acc.map Prod.fst ++ tasks.map CrewTask.name := by
  intro tasks
  induction tasks with
  | nil => intro acc; simp [kickoffGo]
  | cons t ts ih => intro acc; simp [kickoffGo, ih]

/-- Counterexample for C1: with the verification stage reporting the
document unsuitable, every downstream stage is still invoked (call count 1,
not 0) and the endpoint's result is tagged `success`, not
`verification_failed`. -/
theorem crew_gating_counterexample :
    callCount (kickoff gatingScenarioTasks "q" "data/sample.pdf")
        "analyze_financial_document" = 1 ∧
    callCount (kickoff gatingScenarioTasks "q" "data/sample.pdf")
        "investment_analysis" = 1 ∧
    callCount (kickoff gatingScenarioTasks "q" "data/sample.pdf")
        "risk_assessment" = 1 ∧
    (analyze_endpoint_response "q" "sample.pdf" "output/report.txt").lookup "status"
        = some "success" ∧
    (analyze_endpoint_response "q" "sample.pdf" "output/report.txt").lookup "status"
        ≠ some "verification_failed" :=
  ⟨rfl, rfl, rfl, rfl, by decide⟩

/-- C1 (amended): the pipeline has no gating rule — `run_crew` executes
every declared stage exactly once in declared order regardless of any
stage's output (in particular of the verification stage's report), and the
endpoint's result is always tagged `success`; no `verification_failed` tag
exists. -/
theorem crew_runs_all_stages (tasks : List CrewTask) (q fp fileUsed outputReport : String) :
    (kickoff tasks q fp).map Prod.fst = tasks.map CrewTask.name ∧
    (analyze_endpoint_response q fileUsed outputReport).lookup "status" = some "success" := by
  constructor
  · simpa using kickoffGo_names q fp tasks []
  · rfl

/-! ### `bonus_main.py`: the execution front door -/

/-- The environment of one request: feature flags resolved at import time,
the outcomes of the effectful collaborators, and the per-request
identifiers the code draws (`uuid4`, wall-clock timing, `datetime.now`). -/
structure Env where
  dbAvailable : Bool
  createOk : Bool
  updateOk : Bool
  crewResult : Except String String
  elapsed : Nat
  fileId : String
  queueAvailable : Bool
  redisConn : Bool
  enqueueOk : Bool
  now : String

/-- An uploaded file as the handler sees it: `file.filename`, `file.size`
(may be `None`), the bytes of the spooled upload, and the stream position —
`consumed` is true once an `await file.read()` has drained the stream, after
which a further `read()` returns empty bytes (nothing in the source ever
seeks back). -/
structure Upload where
  filename : String
  size : Option Nat
  content : String
  consumed : Bool
deriving DecidableEq

/-- `await file.read()`: the full contents on a fresh stream, empty bytes on
a drained one; either way the stream is left drained. -/
def readUpload (f : Upload) : String × Upload :=
  if f.consumed then ("", f) else (f.content, { f with consumed := true })

/-- An HTTP outcome: a JSON body (modelled as the ordered key/value list
the handler builds) or a raised `HTTPException`. -/
inductive HttpResult where
  | ok (body : List (String × String))
  | err (code : Nat) (detail : String)
deriving DecidableEq

/-- What one handler invocation produced: the HTTP outcome, the analysis
records left in the persistent store, and how many times `run_crew` ran. -/
structure RunOutcome where
  response : HttpResult
  records : List AnalysisResult
  crewRuns : Nat
deriving DecidableEq

/-- The keyword parameters `DatabaseOperations.create_analysis_result`
accepts (`bonus_database.py`). -/
def create_analysis_result_params : List String :=
  ["db", "filename", "query", "analysis_result", "original_filename", "file_size",
   "analysis_type", "processing_time", "user_ip", "job_id"]

/-- Python accepts a call only when every keyword argument names a declared
parameter; otherwise the call raises `TypeError` before the body runs. -/
def kwargsAccepted (kwargs params : List String) : Bool :=
  kwargs.all (fun k => params.contains k)

/-- The keyword arguments `analyze_document` (and `analyze_sample_document`)
passes to `create_analysis_result` — including `status`, which the
function does not declare. -/
def analyze_create_kwargs : List String :=
  ["db", "filename", "original_filename", "file_size", "query", "analysis_result",
   "status", "user_ip"]

/-- The keyword arguments `analyze_document_async` passes to
`create_analysis_result` — also including the undeclared `status`. -/
def async_create_kwargs : List String :=
  ["db", "filename", "original_filename", "file_size", "query", "analysis_result",
   "status", "user_ip", "job_id"]

theorem analyze_create_call_raises : kwargsAccepted analyze_create_kwargs create_analysis_result_params = false := by decide

theorem async_create_call_raises : kwargsAccepted async_create_kwargs create_analysis_result_params = false := by decide

/-- `10 * 1024 * 1024`, the upload size limit. -/
def tenMB : Nat := 10 * 1024 * 1024

/-- `if file.size and file.size > 10 * 1024 * 1024:` — `None` and `0` are
falsy, so only a present positive size is compared. -/
def sizeTooBig (size : Option Nat) : Bool :=
  match size with
  | some s => decide (s > tenMB)
  | none => false

def defaultQuery : String := "Provide a comprehensive analysis of this financial document"

/-- `if not query or query.strip() == "": query = <default>` followed by
`query = query.strip()`. -/
def cleanQuery (query : Option String) : String :=
  let s := pyStrip (query.getD "")
  if s = "" then defaultQuery else s

/-- `f"data/financial_document_{file_id}.pdf"`. -/
def uploadPath (env : Env) : String :=
  "data/financial_document_" ++ env.fileId ++ ".pdf"

/-- `str(file.size)` as rendered into the response. -/
def sizeStr (size : Option Nat) : String :=
  match size with
  | some s => toString s
  | none => "None"

/-- The success response body of `analyze_document`, with the optional
`database_id` entry. -/
def successBody (env : Env) (file : Upload) (query analysis : String)
    (databaseId : Option String) : List (String × String) :=
  [("status", "success"), ("query", query), ("analysis", analysis),
   ("file_processed", file.filename), ("file_size", sizeStr file.size),
   ("analysis_id", env.fileId), ("processing_time", toString env.elapsed)] ++
  (match databaseId with
   | some i => [("database_id", i)]
   | none => [])

/-- The `/analyze` handler `analyze_document` of `bonus_main.py`.

Order of events as in the source: the database record is attempted first —
the call passes a `status` keyword that `create_analysis_result` does not
declare, so it raises `TypeError` and the surrounding `except` leaves
`db_result = None`; then the file-type and size validations raise 400s;
then the save-file `try` reads the stream — on empty bytes it raises
`HTTPException(400, "Empty file uploaded")`, but that exception is caught
by the block's own `except Exception as e` (HTTPException subclasses
Exception) and re-raised as
`HTTPException(500, f"Error saving uploaded file: {str(e)}")`, whose
detail embeds `str(e) = "400: Empty file uploaded"` — so the caller sees a
500, never the 400; then the query is cleaned and `run_crew` invoked; a
crew failure becomes a 500 after a best-effort status update, a crew
success yields the `success` body after a best-effort `completed`
update. -/
def analyze_document (env : Env) (file : Upload) (query : Option String) : RunOutcome :=
  let dbResult : Option AnalysisResult :=
    if env.dbAvailable && kwargsAccepted analyze_create_kwargs create_analysis_result_params
        && env.createOk then
      some ⟨env.fileId, "processing", "Processing...", none, 0⟩
    else none
  let records : List AnalysisResult :=
    match dbResult with
    | some r => [r]
    | none => []
  if !(hasPdfExt file.filename) then
    ⟨HttpResult.err 400 "Only PDF files are supported", records, 0⟩
  else if sizeTooBig file.size then
    ⟨HttpResult.err 400 "File size must be less than 10MB", records, 0⟩
  else if (readUpload file).1 = "" then
    ⟨HttpResult.err 500 "Error saving uploaded file: 400: Empty file uploaded", records, 0⟩
  else
    let q := cleanQuery query
    match env.crewResult with
    | Except.error e =>
      let records1 :=
        if env.dbAvailable && dbResult.isSome then
          (update_analysis_status records env.fileId "failed" (some e) none
            env.elapsed env.updateOk).2
        else records
      ⟨HttpResult.err 500 ("Error during document analysis: " ++ e), records1, 1⟩
    | Except.ok analysis =>
      let records1 :=
        if env.dbAvailable && dbResult.isSome then
          (update_analysis_status records env.fileId "completed" none (some analysis)
            env.elapsed env.updateOk).2
        else records
      let databaseId := if env.dbAvailable && dbResult.isSome
        then dbResult.map (fun r => r.id) else none
      ⟨HttpResult.ok (successBody env file q analysis databaseId), records1, 1⟩

/-- The `"status": "queued"` response of `analyze_document_async`. -/
def queuedBody (jobId query filename priority : String) : List (String × String) :=
  [("status", "queued"), ("job_id", jobId), ("query", query),
   ("file_processed", filename), ("priority", priority),
   ("check_status_url", "/job-status/" ++ jobId),
   ("estimated_processing_time", "2-5 minutes")]

/-- The `/analyze-async` handler `analyze_document_async` of
`bonus_main.py`: with no queue feature it immediately delegates to the
synchronous handler (before any read, so the stream is still fresh);
otherwise it validates, reads and saves the upload (its `raise
HTTPException(400, "Empty file uploaded")` sits in no inner try, so the
400 reaches the caller), enqueues via `queue_financial_analysis`, returns
the `queued` body on success (after a best-effort database record that
again raises `TypeError`), and falls back to the synchronous handler when
enqueue returned `None` — handing it the already-drained stream, so the
fallback's own `await file.read()` yields empty bytes. -/
def analyze_document_async (env : Env) (st : QueueState) (file : Upload)
    (query : Option String) (priority : String) : RunOutcome × QueueState :=
  if !env.queueAvailable then
    (analyze_document env file query, st)
  else if !(hasPdfExt file.filename) then
    (⟨HttpResult.err 400 "Only PDF files are supported", [], 0⟩, st)
  else if sizeTooBig file.size then
    (⟨HttpResult.err 400 "File size must be less than 10MB", [], 0⟩, st)
  else
    match readUpload file with
    | (content, file1) =>
      if content = "" then
        (⟨HttpResult.err 400 "Empty file uploaded", [], 0⟩, st)
      else
        let q := cleanQuery query
        match queue_financial_analysis env.redisConn st env.enqueueOk env.now
            (uploadPath env) q priority with
        | (some jobId, st1) =>
          let records : List AnalysisResult :=
            if env.dbAvailable && kwargsAccepted async_create_kwargs create_analysis_result_params
                && env.createOk then
              [⟨env.fileId, "queued", "Queued for processing...", none, 0⟩]
            else []
          (⟨HttpResult.ok (queuedBody jobId q file.filename priority), records, 0⟩, st1)
        | (none, st1) => (analyze_document env file1 query, st1)

/-- Counterexample for C6: a concrete 0-byte upload submitted to the
`/analyze` handler is answered with the internal-error 500
`Error saving uploaded file: 400: Empty file uploaded` — the inner
`except Exception` catches the 400 `Empty file uploaded` HTTPException and
re-raises it as a 500 — so no ValidationError (the 400 rejection) is
surfaced to the caller, refuting the claim as stated. -/
theorem empty_file_500_counterexample :
    analyze_document ⟨true, true, true, Except.ok "REPORT", 1, "fid2", true, true, true, "t"⟩
        ⟨"empty.pdf", some 0, "", false⟩ (some "q")
      = ⟨HttpResult.err 500 "Error saving uploaded file: 400: Empty file uploaded", [], 0⟩ ∧
    (analyze_document ⟨true, true, true, Except.ok "REPORT", 1, "fid2", true, true, true, "t"⟩
        ⟨"empty.pdf", some 0, "", false⟩ (some "q")).response
      ≠ HttpResult.err 400 "Empty file uploaded" :=
  ⟨rfl, by decide⟩

/-- C6 (amended): a 0-byte upload (valid PDF name and size) is rejected
before `run_crew` executes (crew call count 0) and leaves no analysis
record in the persistent store (the record-creation attempt always raises
`TypeError` on the undeclared `status` keyword and is swallowed), but the
rejection reaches the caller as the 500
`Error saving uploaded file: 400: Empty file uploaded`, not as a
ValidationError: the save block's own `except Exception` converts the 400
into an internal error. -/
theorem empty_file_rejected_as_500 (env : Env) (file : Upload) (q : Option String)
    (hpdf : hasPdfExt file.filename = true) (hsize : sizeTooBig file.size = false)
    (hcons : file.consumed = false) (hempty : file.content = "") :
    analyze_document env file q
      = ⟨HttpResult.err 500 "Error saving uploaded file: 400: Empty file uploaded", [], 0⟩ := by
  simp [analyze_document, analyze_create_call_raises, readUpload, hpdf, hsize, hcons, hempty]

/-- Witness for C6 (amended): the concrete empty upload yields the 500, no
crew run, no stored record. -/
theorem empty_file_rejected_as_500_witness :
    analyze_document ⟨false, true, true, Except.ok "REPORT", 4, "fid4", true, true, true, "t"⟩
        ⟨"blank.pdf", some 0, "", false⟩ none
      = ⟨HttpResult.err 500 "Error saving uploaded file: 400: Empty file uploaded", [], 0⟩ :=
  empty_file_rejected_as_500 _ _ _ (by decide) (by decide) rfl rfl

/-- C7: when the pipeline run succeeds, the caller receives the `success`
body with the analysis text no matter how the persistent-store operations
fare — the theorem quantifies over every environment, so in particular over
`createOk = false` / `updateOk = false` (store create/update failures),
which are caught and logged without changing the outcome. -/
theorem store_failure_does_not_abort (env : Env) (file : Upload) (q : Option String)
    (analysis : String)
    (hpdf : hasPdfExt file.filename = true) (hsize : sizeTooBig file.size = false)
    (hcons : file.consumed = false) (hne : file.content ≠ "")
    (hcrew : env.crewResult = Except.ok analysis) :
    (analyze_document env file q).response
      = HttpResult.ok (successBody env file (cleanQuery q) analysis none) ∧
    (analyze_document env file q).crewRuns = 1 := by
  constructor <;>
    simp [analyze_document, analyze_create_call_raises, readUpload, hpdf, hsize, hcons,
      hne, hcrew]

/-- Witness for C7: with the database available but both store operations
failing, the caller still receives the successful analysis. -/
theorem store_failure_witness :
    (analyze_document ⟨true, false, false, Except.ok "REPORT", 3, "fid3", false, false, false, "t"⟩
        ⟨"report.pdf", some 2048, "PDFDATA", false⟩ none).response
      = HttpResult.ok (successBody
          ⟨true, false, false, Except.ok "REPORT", 3, "fid3", false, false, false, "t"⟩
          ⟨"report.pdf", some 2048, "PDFDATA", false⟩ (cleanQuery none) "REPORT" none) :=
  (store_failure_does_not_abort _ _ none "REPORT" (by decide) (by decide) rfl (by decide) rfl).1

/-- A request environment in which the queue feature is imported but the
Redis connection is down, so `queue_financial_analysis` returns `None`. -/
def envNoQueueConn : Env :=
  ⟨false, true, true, Except.ok "REPORT", 2, "fid", true, false, true, "20250101_120000"⟩

/-- A small valid PDF upload with a fresh (undrained) stream. -/
def fileSmallPdf : Upload := ⟨"doc.pdf", some 100, "DATA", false⟩

/-- The success body contains no `fallback_used` (nor any other fallback)
key. -/
theorem successBody_no_fallback_key (env : Env) (file : Upload) (q a : String) :
    List.lookup "fallback_used" (successBody env file q a none) = none := rfl

/-- The synchronous handler invoked on an already-drained upload stream:
its own `await file.read()` yields empty bytes, so the save block raises
the 400 that its `except Exception` re-raises as the 500
`Error saving uploaded file: 400: Empty file uploaded`; no crew run, no
stored record. -/
theorem analyze_document_drained (env : Env) (file : Upload) (q : Option String)
    (hpdf : hasPdfExt file.filename = true) (hsize : sizeTooBig file.size = false)
    (hcons : file.consumed = true) :
    analyze_document env file q
      = ⟨HttpResult.err 500 "Error saving uploaded file: 400: Empty file uploaded", [], 0⟩ := by
  simp [analyze_document, analyze_create_call_raises, readUpload, hpdf, hsize, hcons]

/-- Counterexample for C4: a concrete async submission served while the
queue connection is down does not receive the sync path's analysis — the
fallback re-invokes the synchronous handler on the already-drained stream
and yields the 500 `Error saving uploaded file: ...` — while the sync path
on the identical fresh input returns the success body; and no response
carries a `fallback_used` marker.  Both halves of the claim fail at this
input. -/
theorem async_fallback_counterexample :
    (analyze_document_async envNoQueueConn emptyQueue fileSmallPdf
        (some "summarize") "normal").1
      = ⟨HttpResult.err 500 "Error saving uploaded file: 400: Empty file uploaded", [], 0⟩ ∧
    (analyze_document envNoQueueConn fileSmallPdf (some "summarize")).response
      = HttpResult.ok [("status", "success"), ("query", "summarize"), ("analysis", "REPORT"),
          ("file_processed", "doc.pdf"), ("file_size", "100"), ("analysis_id", "fid"),
          ("processing_time", "2")] ∧
    List.lookup "fallback_used"
        [("status", "success"), ("query", "summarize"), ("analysis", "REPORT"),
         ("file_processed", "doc.pdf"), ("file_size", "100"), ("analysis_id", "fid"),
         ("processing_time", "2")] = none :=
  ⟨rfl, rfl, rfl⟩

/-- C4 (amended): when the queue is unavailable the async handler does fall
back to the synchronous handler, but by then its own read has drained the
upload stream, so the fallback's re-read yields empty bytes and the caller
receives the 500 `Error saving uploaded file: 400: Empty file uploaded`
instead of the analysis the sync path would produce for the same fresh
input; and no success body the synchronous path can produce contains a
`fallback_used` key, so the fallback is not observable via any marker
field. -/
theorem async_fallback_drained_stream (env : Env) (st : QueueState) (file : Upload)
    (q : Option String) (priority : String)
    (hqa : env.queueAvailable = true)
    (hpdf : hasPdfExt file.filename = true) (hsize : sizeTooBig file.size = false)
    (hcons : file.consumed = false) (hne : file.content ≠ "")
    (henq : (queue_financial_analysis env.redisConn st env.enqueueOk env.now
        (uploadPath env) (cleanQuery q) priority).1 = none) :
    (analyze_document_async env st file q priority).1
      = ⟨HttpResult.err 500 "Error saving uploaded file: 400: Empty file uploaded", [], 0⟩ ∧
    (∀ body, (analyze_document env file q).response = HttpResult.ok body →
      List.lookup "fallback_used" body = none) := by
  constructor
  · rcases hp : queue_financial_analysis env.redisConn st env.enqueueOk env.now
        (uploadPath env) (cleanQuery q) priority with ⟨jid, st1⟩
    rw [hp] at henq
    simp only [Prod.fst] at henq
    subst henq
    have hdrain : analyze_document env { file with consumed := true } q
        = ⟨HttpResult.err 500 "Error saving uploaded file: 400: Empty file uploaded", [], 0⟩ :=
      analyze_document_drained env _ q (by simpa using hpdf) (by simpa using hsize) rfl
    simp [analyze_document_async, hqa, hpdf, hsize, readUpload, hcons, hne, hp, hdrain]
  · intro body hb
    rcases hcr : env.crewResult with e | analysis
    · simp [analyze_document, analyze_create_call_raises, readUpload, hpdf, hsize, hcons,
        hne, hcr] at hb
    · simp [analyze_document, analyze_create_call_raises, readUpload, hpdf, hsize, hcons,
        hne, hcr] at hb
      rw [← hb]
      exact successBody_no_fallback_key env file (cleanQuery q) analysis

/-- Witness for C4 (amended): the concrete queue-down async submission ends
in the 500 saving error. -/
theorem async_fallback_drained_witness :
    (analyze_document_async envNoQueueConn emptyQueue fileSmallPdf
        (some "summarize") "normal").1
      = ⟨HttpResult.err 500 "Error saving uploaded file: 400: Empty file uploaded", [], 0⟩ :=
  (async_fallback_drained_stream envNoQueueConn emptyQueue fileSmallPdf (some "summarize")
      "normal" rfl (by decide) (by decide) rfl (by decide) rfl).1

/-! ### `tools.py`: `FinancialDocumentTool._run` -/

namespace FinancialDocumentTool

/-- The per-page cleanup:
`content.replace('\n\n\n', '\n\n').replace('  ', ' ').strip()`. -/
def cleanPage (content : String) : String :=
  pyStrip (pyReplace (pyReplace content "\n\n\n" "\n\n") "  " " ")

/-- `f"\n--- Page {i+1} ---\n"`. -/
def pageHeader (i : Nat) : String := "\n--- Page " ++ toString (i + 1) ++ " ---\n"

/-- The `for i, page in enumerate(docs)` accumulation of `full_report`:
pages whose cleaned content is empty contribute nothing; the others
contribute a page header, the cleaned content and a newline. -/
def buildReportAux : Nat → List String → String
  | _, [] => ""
  | i, page :: rest =>
    let content := cleanPage page
    (if content = "" then "" else pageHeader i ++ content ++ "\n") ++
      buildReportAux (i + 1) rest

def buildReport (docs : List String) : String := buildReportAux 0 docs

/-- `"Error: File not found at path {path}. Please ensure the file exists."`. -/
def msgNotFound (path : String) : String :=
  "Error: File not found at path " ++ path ++ ". Please ensure the file exists."

/-- `"Error: File must be a PDF. Received: {path}"`. -/
def msgNotPdf (path : String) : String :=
  "Error: File must be a PDF. Received: " ++ path

/-- `"Error reading PDF file: {e}. Please ensure the file is a valid PDF and not corrupted."`. -/
def msgReadFailure (e : String) : String :=
  "Error reading PDF file: " ++ e ++ ". Please ensure the file is a valid PDF and not corrupted."

/-- `"Error: No content could be extracted from the PDF file."`. -/
def msgNoContent : String := "Error: No content could be extracted from the PDF file."

/-- `"Error: No readable content found in the PDF file."`. -/
def msgNoReadableContent : String := "Error: No readable content found in the PDF file."

/-- `FinancialDocumentTool._run(path)`.  `fileOnDisk` models
`os.path.exists(path)`; `load` models `PyPDFLoader(path).load()` — either
the page-content list or a raised exception's text (the surrounding
`except` turns any exception into the read-failure message).  Every branch
returns a string: the function never raises to its caller. -/
def run (fileOnDisk : Bool) (load : Except String (List String)) (path : String) : String :=
  if !fileOnDisk then msgNotFound path
  else if !(hasPdfExt path) then msgNotPdf path
  else
    match load with
    | Except.error e => msgReadFailure e
    | Except.ok docs =>
      if docs = [] then msgNoContent
      else
        let fullReport := buildReport docs
        if pyStrip fullReport = "" then msgNoReadableContent
        else pyStrip fullReport

theorem msgNotFound_data (p : String) :
    (msgNotFound p).data = "Error: File not found at path ".data
      ++ (p.data ++ ". Please ensure the file exists.".data) := by
  simp [msgNotFound, data_append, List.append_assoc]

theorem msgNotPdf_data (p : String) :
    (msgNotPdf p).data = "Error: File must be a PDF. Received: ".data ++ p.data := by
  simp [msgNotPdf, data_append]

theorem msgReadFailure_data (e : String) :
    (msgReadFailure e).data = "Error reading PDF file: ".data
      ++ (e.data ++ ". Please ensure the file is a valid PDF and not corrupted.".data) := by
  simp [msgReadFailure, data_append, List.append_assoc]

theorem msgNoContent_data : msgNoContent.data = msgNoContent.data ++ [] :=
  (List.append_nil _).symm

theorem msgNoReadableContent_data :
    msgNoReadableContent.data = msgNoReadableContent.data ++ [] :=
  (List.append_nil _).symm

/-- C10: the extraction tool is total and never raises: a missing file, a
non-.pdf path, an empty page list, a document with no readable content and
an internal exception each yield their own error string; the five messages
are pairwise distinct and all begin with `Error`; success returns the
non-empty cleaned report text. -/
theorem run_spec :
    (∀ (load : Except String (List String)) (path : String),
      run false load path = msgNotFound path) ∧
    (∀ (load : Except String (List String)) (path : String), hasPdfExt path = false →
      run true load path = msgNotPdf path) ∧
    (∀ (e path : String), hasPdfExt path = true →
      run true (Except.error e) path = msgReadFailure e) ∧
    (∀ path : String, hasPdfExt path = true →
      run true (Except.ok []) path = msgNoContent) ∧
    (∀ (docs : List String) (path : String), hasPdfExt path = true → docs ≠ [] →
      pyStrip (buildReport docs) = "" →
      run true (Except.ok docs) path = msgNoReadableContent) ∧
    (∀ (docs : List String) (path : String), hasPdfExt path = true → docs ≠ [] →
      pyStrip (buildReport docs) ≠ "" →
      run true (Except.ok docs) path = pyStrip (buildReport docs) ∧
      run true (Except.ok docs) path ≠ "") ∧
    (∀ (p₁ p₂ e : String),
      List.Pairwise (fun a b => a ≠ b)
        [msgNotFound p₁, msgNotPdf p₂, msgReadFailure e, msgNoContent,
         msgNoReadableContent]) ∧
    (∀ (p e : String),
      (msgNotFound p).data.take 5 = "Error".data ∧
      (msgNotPdf p).data.take 5 = "Error".data ∧
      (msgReadFailure e).data.take 5 = "Error".data ∧
      msgNoContent.data.take 5 = "Error".data ∧
      msgNoReadableContent.data.take 5 = "Error".data) := by
  refine ⟨?_, ?_, ?_, ?_, ?_, ?_, ?_, ?_⟩
  · intro load path; rfl
  · intro load path h; simp [run, h]
  · intro e path h; simp [run, h]
  · intro path h; simp [run, h]
  · intro docs path h hd hs; simp [run, h, hd, hs]
  · intro docs path h hd hs
    have hrun : run true (Except.ok docs) path = pyStrip (buildReport docs) := by
      simp [run, h, hd, hs]
    exact ⟨hrun, hrun ▸ hs⟩
  · intro p₁ p₂ e
    have h12 : msgNotFound p₁ ≠ msgNotPdf p₂ :=
      string_ne_of_prefix_ne _ _ _ _ _ _ 13 (msgNotFound_data p₁) (msgNotPdf_data p₂)
        (by decide) (by decide) (by decide)
    have h13 : msgNotFound p₁ ≠ msgReadFailure e :=
      string_ne_of_prefix_ne _ _ _ _ _ _ 13 (msgNotFound_data p₁) (msgReadFailure_data e)
        (by decide) (by decide) (by decide)
    have h14 : msgNotFound p₁ ≠ msgNoContent :=
      string_ne_of_prefix_ne _ _ _ _ _ _ 13 (msgNotFound_data p₁) msgNoContent_data
        (by decide) (by decide) (by decide)
    have h15 : msgNotFound p₁ ≠ msgNoReadableContent :=
      string_ne_of_prefix_ne _ _ _ _ _ _ 13 (msgNotFound_data p₁) msgNoReadableContent_data
        (by decide) (by decide) (by decide)
    have h23 : msgNotPdf p₂ ≠ msgReadFailure e :=
      string_ne_of_prefix_ne _ _ _ _ _ _ 13 (msgNotPdf_data p₂) (msgReadFailure_data e)
        (by decide) (by decide) (by decide)
    have h24 : msgNotPdf p₂ ≠ msgNoContent :=
      string_ne_of_prefix_ne _ _ _ _ _ _ 13 (msgNotPdf_data p₂) msgNoContent_data
        (by decide) (by decide) (by decide)
    have h25 : msgNotPdf p₂ ≠ msgNoReadableContent :=
      string_ne_of_prefix_ne _ _ _ _ _ _ 13 (msgNotPdf_data p₂) msgNoReadableContent_data
        (by decide) (by decide) (by decide)
    have h34 : msgReadFailure e ≠ msgNoContent :=
      string_ne_of_prefix_ne _ _ _ _ _ _ 13 (msgReadFailure_data e) msgNoContent_data
        (by decide) (by decide) (by decide)
    have h35 : msgReadFailure e ≠ msgNoReadableContent :=
      string_ne_of_prefix_ne _ _ _ _ _ _ 13 (msgReadFailure_data e) msgNoReadableContent_data
        (by decide) (by decide) (by decide)
    have h45 : msgNoContent ≠ msgNoReadableContent :=
      string_ne_of_prefix_ne _ _ _ _ _ _ 13 msgNoContent_data msgNoReadableContent_data
        (by decide) (by decide) (by decide)
    simp [List.pairwise_cons, h12, h13, h14, h15, h23, h24, h25, h34, h35, h45]
  · intro p e
    refine ⟨?_, ?_, ?_, by decide, by decide⟩
    · rw [msgNotFound_data, take_append_left' 5 _ _ (by decide)]; decide
    · rw [msgNotPdf_data, take_append_left' 5 _ _ (by decide)]; decide
    · rw [msgReadFailure_data, take_append_left' 5 _ _ (by decide)]; decide

/-- Witness for C10: a PDF whose pages clean to nothing yields the
no-readable-content error. -/
theorem run_spec_witness :
    run true (Except.ok ["", " "]) "r.pdf" = msgNoReadableContent :=
  run_spec.2.2.2.2.1 ["", " "] "r.pdf" (by decide) (by decide) (by decide)

end FinancialDocumentTool
